import Mathlib

/-!
Verification development for the deno_sftp_client repository.

The embedding below models `src/SftpClient.ts` and
`src/internal/SwitchableLogger.ts`: the client state (the `inProgress`
single-slot registry, the `uploadInProgress` map, the deferred promises),
the facade methods (`pwd`, `cd`, `uploadFile`, `ls`, `lls`,
`downloadFile`) and the line-matching callback installed in the
constructor. Deferred promises (p-defer) are modelled as entries of a
promise store keyed by creation index; logger calls that pass the
SwitchableLogger severity gate are recorded as `WCall` values.
-/

namespace SftpSpec

/-- Severity of an invocation that reaches the wrapped GenericLogger. -/
inductive Severity where
  | debug | log | info | warn | error
deriving DecidableEq

/-- One forwarded invocation of the wrapped GenericLogger: severity, message, metadata. -/
structure WCall where
  sev : Severity
  msg : String
  meta : List String
deriving DecidableEq

/-- The logMode values of SwitchableLogger (SwitchableLogger.ts line 10). -/
inductive SLMode where
  | normal | verbose | silent | error | warn
deriving DecidableEq

/-- Severity gating of SwitchableLogger (SwitchableLogger.ts lines 20-63): whether a call at the given severity is forwarded to the wrapped logger. -/
def slPasses (m : SLMode) : Severity → Bool
  | .debug => m == .verbose
  | .log => m == .verbose || m == .normal
  | .info => m == .verbose || m == .normal
  | .warn => m == .verbose || m == .normal || m == .warn
  | .error => m == .verbose || m == .normal || m == .warn || m == .error

/-- The logMode option of ClientOptions (SftpClient.ts lines 53-58). -/
inductive LogMode where
  | normal | verbose | silent | onlyUnknown | unknownAndError
deriving DecidableEq

/-- ClientOptions (SftpClient.ts lines 17-59), restricted to the fields the engine reads. -/
structure ClientOptions where
  host : String
  cwd : String
  uploaderName : String
  logMode : LogMode
deriving DecidableEq

/-- Constructor logMode setup (SftpClient.ts lines 182-198): unknown-and-error wraps the logger at mode error, only-unknown at silent, every other mode is passed through. -/
def initialSLMode : LogMode → SLMode
  | .unknownAndError => .error
  | .onlyUnknown => .silent
  | .normal => .normal
  | .verbose => .verbose
  | .silent => .silent

/-- JS string indexing by code point, as a one-character string; empty past the end. Models both `line[i]` and array destructuring of a string. -/
def charAtStr (s : String) (n : Nat) : String :=
  match s.data.drop n with
  | [] => ""
  | c :: _ => String.mk [c]

/-- JS String.startsWith, modelled on the character list. -/
def jsStarts (s pre : String) : Bool :=
  pre.data.isPrefixOf s.data

/-- Auxiliary for jsSplit: split a character list at every occurrence of the separator. -/
def splitChars (sep : Char) : List Char → List Char → List String
  | [], acc => [String.mk acc.reverse]
  | c :: cs, acc =>
    if c = sep then String.mk acc.reverse :: splitChars sep cs []
    else splitChars sep cs (c :: acc)

/-- JS String.split with a single-character separator. -/
def jsSplit (s : String) (sep : Char) : List String :=
  splitChars sep s.data []

/-- JS String.trim: strip whitespace from both ends. -/
def jsTrim (s : String) : String :=
  String.mk (((s.data.dropWhile Char.isWhitespace).reverse.dropWhile Char.isWhitespace).reverse)

/-- Result values with which the client settles its deferred promises. -/
inductive SftpValue where
  | vBool (b : Bool)
  | vStr (s : String)
  | vUnit
deriving DecidableEq

/-- JS template-string rendering of a settled value. -/
def valueText : SftpValue → String
  | .vBool true => "true"
  | .vBool false => "false"
  | .vStr s => s
  | .vUnit => "undefined"

/-- State of one deferred promise (p-defer): pending until resolved or rejected; settling an already-settled promise is a no-op. -/
inductive PState where
  | pending
  | resolved (v : SftpValue)
  | rejected (msg : String)
deriving DecidableEq

/-- The promise store: every deferred promise the client created, keyed by creation index. -/
abbrev PromiseStore := List (Nat × PState)

/-- Look up a promise by id. -/
def storeGet : PromiseStore → Nat → Option PState
  | [], _ => none
  | p :: ps, id => if p.1 = id then some p.2 else storeGet ps id

/-- Settle the promise with the given id: it takes the new state only while still pending, since p-defer resolve and reject are no-ops on an already-settled promise. -/
def storeSettle : PromiseStore → Nat → PState → PromiseStore
  | [], _, _ => []
  | p :: ps, id, w =>
      if p.1 = id then (p.1, if p.2 = PState.pending then w else p.2) :: ps
      else p :: storeSettle ps id w

/-- p-defer resolve. -/
def storeResolve (ps : PromiseStore) (id : Nat) (v : SftpValue) : PromiseStore :=
  storeSettle ps id (PState.resolved v)

/-- p-defer reject. -/
def storeReject (ps : PromiseStore) (id : Nat) (msg : String) : PromiseStore :=
  storeSettle ps id (PState.rejected msg)

/-- FileTransferInProgress, upload variant (SftpClient.ts lines 64-98); pendingId refers into the promise store. -/
structure FileTransferInProgress where
  transferType : String
  localPath : String
  remotePath : Option String
  command : String
  pendingId : Nat
deriving DecidableEq

/-- The uploadInProgress map, keyed by local file path. -/
abbrev UploadMap := List (String × FileTransferInProgress)

/-- JS Map.get. -/
def mapGet : UploadMap → String → Option FileTransferInProgress
  | [], _ => none
  | p :: ps, k => if p.1 = k then some p.2 else mapGet ps k

/-- JS Map.set: replaces the existing entry for the key in place, otherwise appends one. -/
def mapSet : UploadMap → String → FileTransferInProgress → UploadMap
  | [], k, v => [(k, v)]
  | p :: ps, k, v => if p.1 = k then (k, v) :: ps else p :: mapSet ps k v

/-- Per-instance state of SftpClient: the single-slot inProgress entries, the uploadInProgress map, the connected deferred, the promise store and the current SwitchableLogger mode. -/
structure SftpState where
  nextId : Nat
  promises : PromiseStore
  pwdInProgress : Option Nat
  cdInProgress : Option (String × Nat)
  uploadInProgress : UploadMap
  connectedId : Nat
  slMode : SLMode
deriving DecidableEq

/-- State right after the constructor ran: the connected deferred is promise 0 and the SwitchableLogger mode derives from the configured logMode. -/
def initState (cfg : ClientOptions) : SftpState :=
  { nextId := 1
  , promises := [(0, PState.pending)]
  , pwdInProgress := none
  , cdInProgress := none
  , uploadInProgress := []
  , connectedId := 0
  , slMode := initialSLMode cfg.logMode }

/-- A logger call as the engine performs it, gated by the current SwitchableLogger mode; only forwarded calls are recorded. -/
def emit (st : SftpState) (sev : Severity) (msg : String) : List WCall :=
  if slPasses st.slMode sev then [⟨sev, msg, []⟩] else []

/-- Like emit, with a metadata argument. -/
def emitMeta (st : SftpState) (sev : Severity) (msg : String) (meta : List String) : List WCall :=
  if slPasses st.slMode sev then [⟨sev, msg, meta⟩] else []

/-- Lookup of this.inProgress[command]: the pending promise id of the named single-slot operation. -/
def getInProgress (st : SftpState) : String → Option Nat
  | "pwd" => st.pwdInProgress
  | "cd" => (st.cdInProgress).map (fun p => p.2)
  | _ => none

/-- Message of the DEV ERROR branch of resolveInProgress (SftpClient.ts lines 546-551). -/
def devErrorResolve (command : String) : String :=
  "DEV ERROR (should not happen in prod - make issue in github): this.inProgress['"
    ++ command ++ "'] is not set, but it should resolve in this function! - Logging the resolved value instead!"

/-- Message of the DEV ERROR branch of rejectInProgress (SftpClient.ts lines 565-568). -/
def devErrorReject : String :=
  "DEV ERROR (should not happen in prod - make issue in github): this.lastNoOutputCommand is not set, but an error occurred for such command! - Logging the error instead!"

/-- SftpClient.resolveInProgress (lines 535-557): resolves the pending promise of the named command; with an empty slot it logs a DEV ERROR plus the value and returns. The slot itself is never cleared. -/
def resolveInProgress (st : SftpState) (command : String) (value : SftpValue) : SftpState × List WCall :=
  match getInProgress st command with
  | none =>
      (st, emit st Severity.error (devErrorResolve command)
            ++ emit st Severity.info (command ++ ": " ++ valueText value))
  | some id => ({ st with promises := storeResolve st.promises id value }, [])

/-- SftpClient.rejectInProgress (lines 558-574): rejects the pending promise of the named command; with an empty slot it logs a DEV ERROR and the message. The slot itself is never cleared. -/
def rejectInProgress (st : SftpState) (command : String) (errorMessage : String) : SftpState × List WCall :=
  match getInProgress st command with
  | none =>
      (st, emit st Severity.error devErrorReject ++ emit st Severity.error errorMessage)
  | some id => ({ st with promises := storeReject st.promises id errorMessage }, [])

/-- Which ts-pattern arm of the output matcher a line falls into, in source order. -/
inductive LineTag where
  | connectedT | uploadingT | pwdResultT | cdFailShellT | cdFailStatT | promptT | unrecognizedT
deriving DecidableEq

/-- The ts-pattern match order over one output line (SftpClient.ts lines 230-326). -/
def classify (line : String) : LineTag :=
  if jsStarts line "Connected" then LineTag.connectedT
  else if jsStarts line "Uploading " then LineTag.uploadingT
  else if jsStarts line "Remote working directory:" then LineTag.pwdResultT
  else if jsStarts line "-bash: cd:" then LineTag.cdFailShellT
  else if jsStarts line "stat remote:" then LineTag.cdFailStatT
  else if jsStarts line "sftp>" then LineTag.promptT
  else LineTag.unrecognizedT

/-- Result of processing one output line: next state, forwarded logger calls, and whether a TypeError escaped the callback. -/
structure LineOut where
  st : SftpState
  calls : List WCall
  threw : Bool
deriving DecidableEq

/-- Connected arm (lines 231-236): resolve the connected deferred with true and log at info. -/
def handleConnected (cfg : ClientOptions) (st : SftpState) : LineOut :=
  let st1 := { st with promises := storeResolve st.promises st.connectedId (SftpValue.vBool true) }
  { st := st1
  , calls := emit st1 Severity.info (cfg.uploaderName ++ ": connected to " ++ cfg.host)
  , threw := false }

/-- STATE_MISSMATCH message of the Uploading arm (lines 246-249). -/
def stateMismatchMsg (uploaderName : String) : String :=
  uploaderName ++ ": STATE_MISSMATCH: internal sftp cli announced an upload\", but the FileTransferInProgress state was not found!"

/-- Uploading arm (lines 237-257). The source destructures the line string itself, `const [_uploading, localPath, _to, remotePath] = line`, so localPath and remotePath are the characters at index 1 and 3 of the line, not the space-separated fields. On a hit the entry's deferred is resolved with true; the map entry is not deleted. -/
def handleUploading (cfg : ClientOptions) (st : SftpState) (line : String) : LineOut :=
  let localPath := charAtStr line 1
  let remotePath := charAtStr line 3
  match mapGet st.uploadInProgress localPath with
  | none =>
      { st := st
      , calls := emitMeta st Severity.error (stateMismatchMsg cfg.uploaderName) [localPath, remotePath]
      , threw := false }
  | some upload =>
      { st := { st with promises := storeResolve st.promises upload.pendingId (SftpValue.vBool true) }
      , calls := emit st Severity.info (cfg.uploaderName ++ ": Uploaded " ++ localPath ++ " to " ++ remotePath)
      , threw := false }

/-- Remote working directory arm (lines 258-266): split on colons, take segment 1, trim, resolve pwd with it. Segment 1 always exists because the matched text contains a colon. -/
def handlePwdResult (st : SftpState) (line : String) : LineOut :=
  match (jsSplit line ':')[1]? with
  | none => { st := st, calls := [], threw := true }
  | some remotePath =>
      let r := resolveInProgress st "pwd" (SftpValue.vStr (jsTrim remotePath))
      { st := r.1, calls := r.2, threw := false }

/-- The -bash: cd: arm (lines 267-280): segments 2 and 3 of the colon split give path and reason; if segment 3 is absent the JS code throws a TypeError calling trim on undefined. -/
def handleCdFailShell (st : SftpState) (line : String) : LineOut :=
  let parts := jsSplit line ':'
  match parts[2]?, parts[3]? with
  | some remotePath, some reason =>
      let r := rejectInProgress st "cd"
        ("cd into '" ++ jsTrim remotePath ++ "' failed: " ++ jsTrim reason)
      { st := r.1, calls := r.2, threw := false }
  | _, _ => { st := st, calls := [], threw := true }

/-- The stat remote: arm (lines 281-295): reason from split segment 1; the path comes from the outstanding cd slot, rendered as undefined when no cd is outstanding, as the JS template string would. -/
def handleCdFailStat (st : SftpState) (line : String) : LineOut :=
  match (jsSplit line ':')[1]? with
  | none => { st := st, calls := [], threw := true }
  | some reason =>
      let cdPath :=
        match st.cdInProgress with
        | some p => p.1
        | none => "undefined"
      let r := rejectInProgress st "cd" ("cd into '" ++ cdPath ++ "' failed: " ++ jsTrim reason)
      { st := r.1, calls := r.2, threw := false }

/-- The sftp> arm (lines 296-311): a prompt resolves an outstanding cd with no value. -/
def handlePrompt (st : SftpState) : LineOut :=
  match st.cdInProgress with
  | some _ =>
      let r := resolveInProgress st "cd" SftpValue.vUnit
      { st := r.1, calls := r.2, threw := false }
  | none => { st := st, calls := [], threw := false }

/-- The otherwise arm (lines 312-326): unrecognized line. only-unknown and unknown-and-error temporarily force the SwitchableLogger to normal for exactly one log call, then set it to silent or error respectively; every other mode logs through the current gate unchanged. -/
def handleOtherwise (cfg : ClientOptions) (st : SftpState) (line : String) : LineOut :=
  let msg := cfg.uploaderName ++ ": -> " ++ line
  match cfg.logMode with
  | LogMode.onlyUnknown =>
      { st := { st with slMode := SLMode.silent }
      , calls := [⟨Severity.log, msg, []⟩]
      , threw := false }
  | LogMode.unknownAndError =>
      { st := { st with slMode := SLMode.error }
      , calls := [⟨Severity.log, msg, []⟩]
      , threw := false }
  | _ => { st := st, calls := emit st Severity.log msg, threw := false }

/-- Dispatch of one classified line to the matching ts-pattern arm. -/
def dispatch (cfg : ClientOptions) (st : SftpState) (line : String) : LineOut :=
  match classify line with
  | LineTag.connectedT => handleConnected cfg st
  | LineTag.uploadingT => handleUploading cfg st line
  | LineTag.pwdResultT => handlePwdResult st line
  | LineTag.cdFailShellT => handleCdFailShell st line
  | LineTag.cdFailStatT => handleCdFailStat st line
  | LineTag.promptT => handlePrompt st
  | LineTag.unrecognizedT => handleOtherwise cfg st line

/-- Processing of one output line by the callback (SftpClient.ts lines 224-327): debug-log the raw line, then dispatch on the first matching pattern. -/
def processLine (cfg : ClientOptions) (st : SftpState) (line : String) : LineOut :=
  { st := (dispatch cfg st line).st
  , calls := emit st Severity.debug (cfg.uploaderName ++ ": rawOut: " ++ line)
      ++ (dispatch cfg st line).calls
  , threw := (dispatch cfg st line).threw }

/-- Process a sequence of output lines in arrival order; a thrown TypeError aborts the stream. -/
def processLines (cfg : ClientOptions) (st : SftpState) : List String → SftpState × List WCall
  | [] => (st, [])
  | l :: ls =>
      let r := processLine cfg st l
      if r.threw then (r.st, r.calls)
      else
        let rest := processLines cfg r.st ls
        (rest.1, r.calls ++ rest.2)

/-- Result of a registering facade call: the new state, the command text written to the sftp process, and the id of the deferred the caller awaits. -/
structure RegOut where
  st : SftpState
  written : String
  promiseId : Nat
deriving DecidableEq

/-- SftpClient.pwd (lines 358-364): overwrite the pwd slot with a fresh deferred and write the pwd command. -/
def pwdCall (st : SftpState) : RegOut :=
  { st := { st with
      nextId := st.nextId + 1
    , promises := st.promises ++ [(st.nextId, PState.pending)]
    , pwdInProgress := some st.nextId }
  , written := "pwd\n"
  , promiseId := st.nextId }

/-- SftpClient.cd (lines 393-400): overwrite the cd slot, recording the target path, with a fresh deferred, and write the cd command. -/
def cdCall (st : SftpState) (remotePath : String) : RegOut :=
  { st := { st with
      nextId := st.nextId + 1
    , promises := st.promises ++ [(st.nextId, PState.pending)]
    , cdInProgress := some (remotePath, st.nextId) }
  , written := "cd " ++ remotePath ++ "\n"
  , promiseId := st.nextId }

/-- SftpClient.prepareFileUploadCommand (lines 420-437): build the put command and store the registry entry keyed by localPath, overwriting any previous entry for that key. -/
def prepareFileUploadCommand (st : SftpState) (localPath : String) (remotePath : Option String) : SftpState × FileTransferInProgress :=
  let command :=
    match remotePath with
    | some r => "put " ++ localPath ++ " " ++ r
    | none => "put " ++ localPath
  let entry : FileTransferInProgress :=
    { transferType := "upload"
    , localPath := localPath
    , remotePath := remotePath
    , command := command
    , pendingId := st.nextId }
  ({ st with
      nextId := st.nextId + 1
    , promises := st.promises ++ [(st.nextId, PState.pending)]
    , uploadInProgress := mapSet st.uploadInProgress localPath entry }
  , entry)

/-- SftpClient.uploadFile (lines 445-455): prepare the registry entry, then write its command; the caller awaits the entry's deferred. -/
def uploadFileCall (st : SftpState) (localPath : String) (remotePath : Option String) : RegOut :=
  let r := prepareFileUploadCommand st localPath remotePath
  { st := r.1, written := r.2.command ++ "\n", promiseId := r.2.pendingId }

/-- SftpClient.ls (lines 370-376): writes the ls command only; nothing is registered and the returned promise resolves as soon as the write completes. -/
def lsCall (st : SftpState) (remotePath : Option String) : SftpState × String :=
  match remotePath with
  | some p => (st, "ls " ++ p ++ "\n")
  | none => (st, "ls\n")

/-- SftpClient.lls (lines 382-388): writes the lls command only; nothing is registered. -/
def llsCall (st : SftpState) (localPath : Option String) : SftpState × String :=
  match localPath with
  | some p => (st, "lls " ++ p ++ "\n")
  | none => (st, "lls\n")

/-- SftpClient.downloadFile (lines 496-502): writes the get command only; no downloadInProgress tracking exists (marked TODO in the source). -/
def downloadFileCall (st : SftpState) (remotePath : String) (localPath : Option String) : SftpState × String :=
  match localPath with
  | some l => (st, "get " ++ remotePath ++ " " ++ l ++ "\n")
  | none => (st, "get " ++ remotePath ++ "\n")

/-! Helper lemmas shared by the claim theorems. -/

theorem storeGet_storeSettle_self (ps : PromiseStore) (id : Nat) (w : PState)
    (h : storeGet ps id = some PState.pending) :
    storeGet (storeSettle ps id w) id = some w := by
  induction ps with
  | nil => simp [storeGet] at h
  | cons p ps ih =>
    by_cases hp : p.1 = id
    · simp [storeGet, hp] at h
      simp [storeSettle, storeGet, hp, h]
    · simp [storeGet, hp] at h
      simp [storeSettle, storeGet, hp, ih h]

theorem storeGet_append_of_none (ps : PromiseStore) (k : Nat) (x : PState)
    (h : storeGet ps k = none) :
    storeGet (ps ++ [(k, x)]) k = some x := by
  induction ps with
  | nil => simp [storeGet]
  | cons p ps ih =>
    by_cases hp : p.1 = k
    · simp [storeGet, hp] at h
    · simp only [List.cons_append, storeGet, hp, if_neg hp] at h ⊢
      exact ih h

theorem storeGet_append_of_ne (ps : PromiseStore) (k n : Nat) (x : PState)
    (h : n ≠ k) :
    storeGet (ps ++ [(k, x)]) n = storeGet ps n := by
  induction ps with
  | nil => simp [storeGet, Ne.symm h]
  | cons p ps ih =>
    by_cases hp : p.1 = n <;> simp [storeGet, hp, ih]

theorem mapGet_mapSet_self (m : UploadMap) (k : String) (v : FileTransferInProgress) :
    mapGet (mapSet m k v) k = some v := by
  induction m with
  | nil => simp [mapSet, mapGet]
  | cons p ps ih =>
    by_cases hp : p.1 = k
    · simp [mapSet, hp, mapGet]
    · simp [mapSet, hp, mapGet, ih]

theorem getInProgress_pwd (st : SftpState) : getInProgress st "pwd" = st.pwdInProgress := rfl

theorem getInProgress_cd (st : SftpState) :
    getInProgress st "cd" = (st.cdInProgress).map (fun p => p.2) := rfl

theorem slPasses_silent (s : Severity) : slPasses SLMode.silent s = false := by
  cases s <;> rfl

theorem resolveInProgress_slots (st : SftpState) (c : String) (v : SftpValue) :
    (resolveInProgress st c v).1.slMode = st.slMode
      ∧ (resolveInProgress st c v).1.pwdInProgress = st.pwdInProgress
      ∧ (resolveInProgress st c v).1.cdInProgress = st.cdInProgress
      ∧ (resolveInProgress st c v).1.uploadInProgress = st.uploadInProgress := by
  unfold resolveInProgress
  cases getInProgress st c <;> exact ⟨rfl, rfl, rfl, rfl⟩

theorem rejectInProgress_slots (st : SftpState) (c : String) (msg : String) :
    (rejectInProgress st c msg).1.slMode = st.slMode
      ∧ (rejectInProgress st c msg).1.pwdInProgress = st.pwdInProgress
      ∧ (rejectInProgress st c msg).1.cdInProgress = st.cdInProgress
      ∧ (rejectInProgress st c msg).1.uploadInProgress = st.uploadInProgress := by
  unfold rejectInProgress
  cases getInProgress st c <;> exact ⟨rfl, rfl, rfl, rfl⟩

theorem resolveInProgress_slMode (st : SftpState) (c : String) (v : SftpValue) :
    (resolveInProgress st c v).1.slMode = st.slMode := (resolveInProgress_slots st c v).1

theorem rejectInProgress_slMode (st : SftpState) (c : String) (msg : String) :
    (rejectInProgress st c msg).1.slMode = st.slMode := (rejectInProgress_slots st c msg).1

theorem resolveInProgress_calls_silent (st : SftpState) (c : String) (v : SftpValue)
    (h : st.slMode = SLMode.silent) : (resolveInProgress st c v).2 = [] := by
  unfold resolveInProgress
  cases getInProgress st c <;> simp [emit, h, slPasses_silent]

theorem rejectInProgress_calls_silent (st : SftpState) (c : String) (msg : String)
    (h : st.slMode = SLMode.silent) : (rejectInProgress st c msg).2 = [] := by
  unfold rejectInProgress
  cases getInProgress st c <;> simp [emit, h, slPasses_silent]

theorem dispatch_recognized_silent (cfg : ClientOptions) (st : SftpState) (l : String)
    (hst : st.slMode = SLMode.silent) (hcl : classify l ≠ LineTag.unrecognizedT) :
    (dispatch cfg st l).calls = [] ∧ (dispatch cfg st l).st.slMode = SLMode.silent := by
  unfold dispatch
  cases hc : classify l with
  | unrecognizedT => exact absurd hc hcl
  | connectedT => simp [handleConnected, emit, hst, slPasses_silent]
  | uploadingT =>
      cases hu : mapGet st.uploadInProgress (charAtStr l 1) <;>
        simp [handleUploading, hu, emit, emitMeta, hst, slPasses_silent]
  | pwdResultT =>
      cases hq : (jsSplit l ':')[1]? <;>
        simp [handlePwdResult, hq, resolveInProgress_calls_silent,
          resolveInProgress_slMode, hst]
  | cdFailShellT =>
      cases hq2 : (jsSplit l ':')[2]? <;> cases hq3 : (jsSplit l ':')[3]? <;>
        simp [handleCdFailShell, hq2, hq3, rejectInProgress_calls_silent,
          rejectInProgress_slMode, hst]
  | cdFailStatT =>
      cases hq : (jsSplit l ':')[1]? <;>
        simp [handleCdFailStat, hq, rejectInProgress_calls_silent,
          rejectInProgress_slMode, hst]
  | promptT =>
      cases hcd : st.cdInProgress <;>
        simp [handlePrompt, hcd, resolveInProgress_calls_silent,
          resolveInProgress_slMode, hst]

theorem dispatch_otherwise_silentCfg (cfg : ClientOptions) (st : SftpState) (l : String)
    (hcfg : cfg.logMode = LogMode.silent) (hst : st.slMode = SLMode.silent)
    (hcl : classify l = LineTag.unrecognizedT) :
    (dispatch cfg st l).calls = [] ∧ (dispatch cfg st l).st.slMode = SLMode.silent := by
  unfold dispatch
  simp [hcl, handleOtherwise, hcfg, emit, hst, slPasses_silent]

theorem processLine_silentCfg (cfg : ClientOptions) (st : SftpState) (l : String)
    (hcfg : cfg.logMode = LogMode.silent) (hst : st.slMode = SLMode.silent) :
    (processLine cfg st l).calls = [] ∧ (processLine cfg st l).st.slMode = SLMode.silent := by
  have hd : (dispatch cfg st l).calls = [] ∧ (dispatch cfg st l).st.slMode = SLMode.silent := by
    by_cases hcl : classify l = LineTag.unrecognizedT
    · exact dispatch_otherwise_silentCfg cfg st l hcfg hst hcl
    · exact dispatch_recognized_silent cfg st l hst hcl
  simp [processLine, emit, hst, slPasses_silent, hd.1, hd.2]

theorem processLine_recognized_silent (cfg : ClientOptions) (st : SftpState) (l : String)
    (hst : st.slMode = SLMode.silent) (hcl : classify l ≠ LineTag.unrecognizedT) :
    (processLine cfg st l).calls = [] ∧ (processLine cfg st l).st.slMode = SLMode.silent := by
  have hd := dispatch_recognized_silent cfg st l hst hcl
  simp [processLine, emit, hst, slPasses_silent, hd.1, hd.2]

theorem processLines_calls_silentCfg (cfg : ClientOptions)
    (hcfg : cfg.logMode = LogMode.silent) :
    ∀ (lines : List String) (st : SftpState), st.slMode = SLMode.silent →
      (processLines cfg st lines).2 = [] := by
  intro lines
  induction lines with
  | nil => intro st _; rfl
  | cons l ls ih =>
      intro st hst
      have hl := processLine_silentCfg cfg st l hcfg hst
      cases ht : (processLine cfg st l).threw <;>
        simp [processLines, ht, hl.1, ih _ hl.2]

theorem processLines_calls_recognized (cfg : ClientOptions) :
    ∀ (lines : List String) (st : SftpState), st.slMode = SLMode.silent →
      (∀ l ∈ lines, classify l ≠ LineTag.unrecognizedT) →
      (processLines cfg st lines).2 = [] := by
  intro lines
  induction lines with
  | nil => intro st _ _; rfl
  | cons l ls ih =>
      intro st hst hall
      have hl := processLine_recognized_silent cfg st l hst (hall l (by simp))
      cases ht : (processLine cfg st l).threw <;>
        simp [processLines, ht, hl.1, ih _ hl.2 (fun x hx => hall x (by simp [hx]))]

theorem mk_data (s : String) : String.mk s.data = s := rfl

theorem isPrefixOf_cons_false (c d : Char) (cs ds : List Char) (h : c ≠ d) :
    List.isPrefixOf (c :: cs) (d :: ds) = false := by
  simp [List.isPrefixOf, h]

theorem isPrefixOf_append_self (l t : List Char) : List.isPrefixOf l (l ++ t) = true := by
  induction l with
  | nil => simp [List.isPrefixOf]
  | cons c cs ih => simp [List.isPrefixOf, ih]

theorem splitChars_append (sep : Char) (cs1 cs2 : List Char) (acc : List Char)
    (h : ¬ sep ∈ cs1) :
    splitChars sep (cs1 ++ sep :: cs2) acc
      = String.mk (acc.reverse ++ cs1) :: splitChars sep cs2 [] := by
  induction cs1 generalizing acc with
  | nil => simp [splitChars]
  | cons c cs ih =>
      have hc : ¬ c = sep := fun hh => h (by simp [hh])
      have h' : ¬ sep ∈ cs := fun hm => h (List.mem_cons_of_mem _ hm)
      simp only [List.cons_append, splitChars, if_neg hc, List.append_eq]
      rw [ih (c :: acc) h']
      simp [List.append_assoc]

theorem jsTrim_space_cons (cs : List Char) :
    jsTrim (String.mk (' ' :: cs)) = jsTrim (String.mk cs) := by
  simp [jsTrim, List.dropWhile_cons, (by decide : Char.isWhitespace ' ' = true)]

theorem processLine_onlyUnknown_unrecognized (cfg : ClientOptions) (st : SftpState) (l : String)
    (hcfg : cfg.logMode = LogMode.onlyUnknown) (hst : st.slMode = SLMode.silent)
    (hcl : classify l = LineTag.unrecognizedT) :
    (processLine cfg st l).calls = [⟨Severity.log, cfg.uploaderName ++ ": -> " ++ l, []⟩]
    ∧ (processLine cfg st l).st.slMode = SLMode.silent := by
  constructor <;>
    simp [processLine, dispatch, hcl, handleOtherwise, hcfg, emit, hst, slPasses_silent]

theorem processLines_onlyUnknown_calls (cfg : ClientOptions)
    (hcfg : cfg.logMode = LogMode.onlyUnknown) :
    ∀ (lines : List String) (st : SftpState), st.slMode = SLMode.silent →
      ∀ c ∈ (processLines cfg st lines).2,
        ∃ l ∈ lines, classify l = LineTag.unrecognizedT
          ∧ c = ⟨Severity.log, cfg.uploaderName ++ ": -> " ++ l, []⟩ := by
  intro lines
  induction lines with
  | nil => intro st _ c hc; simp [processLines] at hc
  | cons l ls ih =>
      intro st hst c hc
      have hline : c ∈ (processLine cfg st l).calls →
          ∃ x ∈ l :: ls, classify x = LineTag.unrecognizedT
            ∧ c = ⟨Severity.log, cfg.uploaderName ++ ": -> " ++ x, []⟩ := by
        intro hmem
        by_cases hcl : classify l = LineTag.unrecognizedT
        · have hl := processLine_onlyUnknown_unrecognized cfg st l hcfg hst hcl
          rw [hl.1] at hmem
          simp at hmem
          exact ⟨l, by simp, hcl, by rw [hmem]⟩
        · have hl := processLine_recognized_silent cfg st l hst hcl
          rw [hl.1] at hmem
          simp at hmem
      cases ht : (processLine cfg st l).threw
      · have hc2 := hc
        simp only [processLines, ht] at hc2
        rcases List.mem_append.mp hc2 with hmem | hmem
        · exact hline hmem
        · have hst' : (processLine cfg st l).st.slMode = SLMode.silent := by
            by_cases hcl : classify l = LineTag.unrecognizedT
            · exact (processLine_onlyUnknown_unrecognized cfg st l hcfg hst hcl).2
            · exact (processLine_recognized_silent cfg st l hst hcl).2
          obtain ⟨x, hx, hclx, hcx⟩ := ih (processLine cfg st l).st hst' c hmem
          exact ⟨x, List.mem_cons_of_mem _ hx, hclx, hcx⟩
      · have hc2 := hc
        simp only [processLines, ht] at hc2
        exact hline hc2

/-! Concrete configurations used by the concrete runs below. -/

/-- A concrete configuration at the default logMode normal. -/
def cfgNormal : ClientOptions :=
  { host := "my-alias", cwd := ".", uploaderName := "SFTP1", logMode := LogMode.normal }

/-- A concrete configuration with logMode silent. -/
def cfgSilent : ClientOptions :=
  { host := "my-alias", cwd := ".", uploaderName := "SFTP1", logMode := LogMode.silent }

/-- A concrete configuration with logMode only-unknown. -/
def cfgOnlyUnknown : ClientOptions :=
  { host := "my-alias", cwd := ".", uploaderName := "SFTP1", logMode := LogMode.onlyUnknown }

/-! Claim theorems. -/

/-- Claim C1. The claim says that registering an upload for local path K and then observing the line `Uploading K to R` settles that upload's future with true and removes the entry for K. The code instead destructures the line string itself (`const [_uploading, localPath, _to, remotePath] = line`), so the lookup key is the character at index 1 of the line (always "p") and the reported remote path is the character at index 3 (always "o"). At the failing input (upload registered for "a.txt", line `Uploading a.txt to b.txt`) the registered future stays pending, the registry entry stays in the map, and a STATE_MISSMATCH error is logged with the mis-parsed one-character paths. -/
theorem sftp_c1_upload_settle_bug :
    storeGet (processLine cfgNormal
        (uploadFileCall (initState cfgNormal) "a.txt" (some "b.txt")).st
        "Uploading a.txt to b.txt").st.promises 1 = some PState.pending
    ∧ mapGet (processLine cfgNormal
        (uploadFileCall (initState cfgNormal) "a.txt" (some "b.txt")).st
        "Uploading a.txt to b.txt").st.uploadInProgress "a.txt"
        = some { transferType := "upload", localPath := "a.txt", remotePath := some "b.txt"
               , command := "put a.txt b.txt", pendingId := 1 }
    ∧ (processLine cfgNormal
        (uploadFileCall (initState cfgNormal) "a.txt" (some "b.txt")).st
        "Uploading a.txt to b.txt").calls
        = [⟨Severity.error, stateMismatchMsg "SFTP1", ["p", "o"]⟩] := by decide

/-- Claim C2. The claim says that a line `Uploading K to R` with no registered upload for K always produces a StateMismatch error diagnostic and settles nothing. Because the code looks up the character at index 1 of the line ("p") instead of K, an upload registered under local path "p" is settled by the line `Uploading a.txt to b.txt` even though no upload for "a.txt" exists, and no error-severity diagnostic is emitted. -/
theorem sftp_c2_mismatch_key_bug :
    storeGet (processLine cfgNormal
        (uploadFileCall (initState cfgNormal) "p" none).st
        "Uploading a.txt to b.txt").st.promises 1
      = some (PState.resolved (SftpValue.vBool true))
    ∧ (∀ c ∈ (processLine cfgNormal
        (uploadFileCall (initState cfgNormal) "p" none).st
        "Uploading a.txt to b.txt").calls, c.sev ≠ Severity.error) := by decide

/-- Claim C4. With a cd operation outstanding and still pending, any line classified as a `sftp>` prompt resolves the cd future with no value. -/
theorem sftp_c4_prompt_resolves_cd (cfg : ClientOptions) (st : SftpState)
    (p : String) (id : Nat) (line : String)
    (hcd : st.cdInProgress = some (p, id))
    (hpending : storeGet st.promises id = some PState.pending)
    (hcl : classify line = LineTag.promptT) :
    storeGet (processLine cfg st line).st.promises id
      = some (PState.resolved SftpValue.vUnit) := by
  simp only [processLine, dispatch, hcl, handlePrompt, hcd, resolveInProgress,
    getInProgress_cd, Option.map_some', storeResolve]
  exact storeGet_storeSettle_self _ _ _ hpending

/-- Claim C4 witness: cd("ok") followed directly by a prompt line resolves the cd future. -/
theorem sftp_c4_prompt_resolves_cd_witness :
    storeGet (processLine cfgNormal (cdCall (initState cfgNormal) "ok").st "sftp> ").st.promises 1
      = some (PState.resolved SftpValue.vUnit) :=
  sftp_c4_prompt_resolves_cd cfgNormal (cdCall (initState cfgNormal) "ok").st "ok" 1 "sftp> "
    (by decide) (by decide) (by decide)

/-- Claim C5. With a pwd operation outstanding and still pending, the line `Remote working directory: /home/x` resolves the pwd future with the trimmed path "/home/x". -/
theorem sftp_c5_pwd_result (cfg : ClientOptions) (st : SftpState) (id : Nat)
    (hpwd : st.pwdInProgress = some id)
    (hpending : storeGet st.promises id = some PState.pending) :
    storeGet (processLine cfg st "Remote working directory: /home/x").st.promises id
      = some (PState.resolved (SftpValue.vStr "/home/x")) := by
  have hcl : classify "Remote working directory: /home/x" = LineTag.pwdResultT := by decide
  have hq : (jsSplit "Remote working directory: /home/x" ':')[1]? = some " /home/x" := by decide
  have ht : jsTrim " /home/x" = "/home/x" := by decide
  simp only [processLine, dispatch, hcl, handlePwdResult, hq, ht, resolveInProgress,
    getInProgress_pwd, hpwd, storeResolve]
  exact storeGet_storeSettle_self _ _ _ hpending

/-- Claim C5 witness: pwd() on a fresh client followed by the result line resolves with "/home/x". -/
theorem sftp_c5_pwd_result_witness :
    storeGet (processLine cfgNormal (pwdCall (initState cfgNormal)).st
        "Remote working directory: /home/x").st.promises 1
      = some (PState.resolved (SftpValue.vStr "/home/x")) :=
  sftp_c5_pwd_result cfgNormal (pwdCall (initState cfgNormal)).st 1 (by decide) (by decide)

/-- Claim C10. Universal form: the pwd result line is split on every colon and only segment 1 is kept, so for every remote path containing a colon — written as p1 followed by a colon and an arbitrary remainder, with p1 colon-free and already trimmed — the line built from it resolves the outstanding pwd future with p1 alone, the path text before the first colon in the path, which differs from the full path. -/
theorem sftp_c10_pwd_colon_truncation (cfg : ClientOptions) (st : SftpState) (id : Nat)
    (p1 rest : String)
    (hpwd : st.pwdInProgress = some id)
    (hpending : storeGet st.promises id = some PState.pending)
    (hnc : ¬ ':' ∈ p1.data)
    (htrim : jsTrim p1 = p1) :
    storeGet (processLine cfg st
        ("Remote working directory: " ++ p1 ++ ":" ++ rest)).st.promises id
      = some (PState.resolved (SftpValue.vStr p1))
    ∧ p1 ≠ p1 ++ ":" ++ rest := by
  have hdata : ("Remote working directory: " ++ p1 ++ ":" ++ rest).data
      = ("Remote working directory").data ++ ':' :: ((' ' :: p1.data) ++ ':' :: rest.data) := by
    have h0 : ("Remote working directory: ").data
        = ("Remote working directory").data ++ [':', ' '] := by decide
    have h1 : (":").data = [':'] := by decide
    simp [String.data_append, h0, h1, List.append_assoc]
  have hhead : ("Remote working directory: " ++ p1 ++ ":" ++ rest).data
      = 'R' :: (("emote working directory").data
          ++ ':' :: ((' ' :: p1.data) ++ ':' :: rest.data)) := by
    rw [hdata,
      (by decide : ("Remote working directory").data = 'R' :: ("emote working directory").data)]
    rfl
  have hC : jsStarts ("Remote working directory: " ++ p1 ++ ":" ++ rest) "Connected" = false := by
    unfold jsStarts
    rw [hhead, (by decide : ("Connected").data = 'C' :: ("onnected").data)]
    exact isPrefixOf_cons_false _ _ _ _ (by decide)
  have hU : jsStarts ("Remote working directory: " ++ p1 ++ ":" ++ rest) "Uploading " = false := by
    unfold jsStarts
    rw [hhead, (by decide : ("Uploading ").data = 'U' :: ("ploading ").data)]
    exact isPrefixOf_cons_false _ _ _ _ (by decide)
  have hR : jsStarts ("Remote working directory: " ++ p1 ++ ":" ++ rest)
      "Remote working directory:" = true := by
    unfold jsStarts
    rw [hdata,
      (by decide : ("Remote working directory:").data
        = ("Remote working directory").data ++ [':'])]
    rw [show ("Remote working directory").data ++ ':' :: ((' ' :: p1.data) ++ ':' :: rest.data)
        = (("Remote working directory").data ++ [':']) ++ ((' ' :: p1.data) ++ ':' :: rest.data)
      by simp [List.append_assoc]]
    exact isPrefixOf_append_self _ _
  have hcl : classify ("Remote working directory: " ++ p1 ++ ":" ++ rest)
      = LineTag.pwdResultT := by
    simp [classify, hC, hU, hR]
  have h2' : ¬ (':' ∈ (' ' :: p1.data)) := by
    intro hm
    rcases List.mem_cons.mp hm with h | h
    · exact absurd h (by decide)
    · exact hnc h
  have hsplit : jsSplit ("Remote working directory: " ++ p1 ++ ":" ++ rest) ':'
      = "Remote working directory" :: String.mk (' ' :: p1.data)
          :: splitChars ':' rest.data [] := by
    unfold jsSplit
    rw [hdata, splitChars_append ':' _ _ [] (by decide), splitChars_append ':' _ _ [] h2']
    simp [mk_data]
  have hq : (jsSplit ("Remote working directory: " ++ p1 ++ ":" ++ rest) ':')[1]?
      = some (String.mk (' ' :: p1.data)) := by
    rw [hsplit]
    simp
  have hv : jsTrim (String.mk (' ' :: p1.data)) = p1 := by
    rw [jsTrim_space_cons]
    exact htrim
  constructor
  · simp only [processLine, dispatch, hcl, handlePwdResult, hq, hv, resolveInProgress,
      getInProgress_pwd, hpwd, storeResolve]
    exact storeGet_storeSettle_self _ _ _ hpending
  · intro he
    have hlen := congrArg (fun l => l.length) (congrArg String.data he)
    simp [String.data_append] at hlen

/-- Claim C10 witness: at the concrete state after pwd() on a fresh client, the colon-bearing result line for path "/a:b" resolves with the truncated "/a", which is not the full path. -/
theorem sftp_c10_pwd_colon_truncation_witness :
    storeGet (processLine cfgNormal (pwdCall (initState cfgNormal)).st
        ("Remote working directory: " ++ "/a" ++ ":" ++ "b")).st.promises 1
      = some (PState.resolved (SftpValue.vStr "/a"))
    ∧ "/a" ≠ "/a" ++ ":" ++ "b" :=
  sftp_c10_pwd_colon_truncation cfgNormal (pwdCall (initState cfgNormal)).st 1 "/a" "b"
    (by decide) (by decide) (by decide) (by decide)

/-- Claim C3. With a cd outstanding and pending: a line in the `-bash: cd:` arm whose colon split has segments 2 and 3 rejects the cd future with the composed message built from the trimmed segments, and a line in the `stat remote:` arm rejects it with the path taken from the outstanding cd operation's recorded target (not from the line) and the trimmed reason from segment 1. -/
theorem sftp_c3_cd_failure (cfg : ClientOptions) (st : SftpState) (p : String) (id : Nat)
    (hcd : st.cdInProgress = some (p, id))
    (hpending : storeGet st.promises id = some PState.pending) :
    (∀ line px rs, classify line = LineTag.cdFailShellT →
        (jsSplit line ':')[2]? = some px →
        (jsSplit line ':')[3]? = some rs →
        storeGet (processLine cfg st line).st.promises id
          = some (PState.rejected ("cd into '" ++ jsTrim px ++ "' failed: " ++ jsTrim rs)))
    ∧ (∀ line rs, classify line = LineTag.cdFailStatT →
        (jsSplit line ':')[1]? = some rs →
        storeGet (processLine cfg st line).st.promises id
          = some (PState.rejected ("cd into '" ++ p ++ "' failed: " ++ jsTrim rs))) := by
  constructor
  · intro line px rs hcl h2 h3
    simp only [processLine, dispatch, hcl, handleCdFailShell, h2, h3, rejectInProgress,
      getInProgress_cd, hcd, Option.map_some', storeReject]
    exact storeGet_storeSettle_self _ _ _ hpending
  · intro line rs hcl h1
    simp only [processLine, dispatch, hcl, handleCdFailStat, h1, hcd, rejectInProgress,
      getInProgress_cd, Option.map_some', storeReject]
    exact storeGet_storeSettle_self _ _ _ hpending

/-- Claim C3 witness: cd("missing") followed by `-bash: cd: missing: No such file or directory` rejects with a message containing both "missing" and "No such file or directory"; the stat variant recovers the path "missing" from the cd slot. -/
theorem sftp_c3_cd_failure_witness :
    storeGet (processLine cfgNormal (cdCall (initState cfgNormal) "missing").st
        "-bash: cd: missing: No such file or directory").st.promises 1
      = some (PState.rejected "cd into 'missing' failed: No such file or directory")
    ∧ storeGet (processLine cfgNormal (cdCall (initState cfgNormal) "missing").st
        "stat remote: No such file or directory").st.promises 1
      = some (PState.rejected "cd into 'missing' failed: No such file or directory") := by
  constructor
  · have h := (sftp_c3_cd_failure cfgNormal (cdCall (initState cfgNormal) "missing").st
      "missing" 1 (by decide) (by decide)).1 "-bash: cd: missing: No such file or directory"
      " missing" " No such file or directory" (by decide) (by decide) (by decide)
    have e1 : jsTrim " missing" = "missing" := by decide
    have e2 : jsTrim " No such file or directory" = "No such file or directory" := by decide
    rw [e1, e2] at h
    simpa using h
  · have h := (sftp_c3_cd_failure cfgNormal (cdCall (initState cfgNormal) "missing").st
      "missing" 1 (by decide) (by decide)).2 "stat remote: No such file or directory"
      " No such file or directory" (by decide) (by decide)
    have e2 : jsTrim " No such file or directory" = "No such file or directory" := by decide
    rw [e2] at h
    simpa using h

/-- Claim C6 counterexample. Settling does not remove registry entries: after pwd() is resolved by its result line the pwd slot still holds the operation (it is not cleared to absent), and after an upload keyed "p" is resolved by an Uploading line its key is still present in the transfer map. -/
theorem sftp_c6_counterexample :
    (processLine cfgNormal (pwdCall (initState cfgNormal)).st
        "Remote working directory: /home/x").st.pwdInProgress = some 1
    ∧ storeGet (processLine cfgNormal (pwdCall (initState cfgNormal)).st
        "Remote working directory: /home/x").st.promises 1
      = some (PState.resolved (SftpValue.vStr "/home/x"))
    ∧ (mapGet (processLine cfgNormal (uploadFileCall (initState cfgNormal) "p" none).st
        "Uploading p to x").st.uploadInProgress "p").isSome = true
    ∧ storeGet (processLine cfgNormal (uploadFileCall (initState cfgNormal) "p" none).st
        "Uploading p to x").st.promises 1
      = some (PState.resolved (SftpValue.vBool true)) := by decide

/-- Claim C6 amended: settling a pending operation settles its future but leaves the registry entry in place — the pwd slot still holds the operation after its result line, and a resolved transfer's key is still in the transfer map. -/
theorem sftp_c6_amended (cfg : ClientOptions) (st : SftpState) :
    (∀ id, st.pwdInProgress = some id → storeGet st.promises id = some PState.pending →
        (processLine cfg st "Remote working directory: /home/x").st.pwdInProgress = some id
        ∧ storeGet (processLine cfg st "Remote working directory: /home/x").st.promises id
            = some (PState.resolved (SftpValue.vStr "/home/x")))
    ∧ (∀ e, mapGet st.uploadInProgress "p" = some e →
        storeGet st.promises e.pendingId = some PState.pending →
        mapGet (processLine cfg st "Uploading p to x").st.uploadInProgress "p" = some e
        ∧ storeGet (processLine cfg st "Uploading p to x").st.promises e.pendingId
            = some (PState.resolved (SftpValue.vBool true))) := by
  have hcl : classify "Remote working directory: /home/x" = LineTag.pwdResultT := by decide
  have hq : (jsSplit "Remote working directory: /home/x" ':')[1]? = some " /home/x" := by decide
  have ht : jsTrim " /home/x" = "/home/x" := by decide
  have hclU : classify "Uploading p to x" = LineTag.uploadingT := by decide
  have hch : charAtStr "Uploading p to x" 1 = "p" := by decide
  constructor
  · intro id hpwd hpending
    constructor
    · simp only [processLine, dispatch, hcl, handlePwdResult, hq, ht, resolveInProgress,
        getInProgress_pwd, hpwd]
    · simp only [processLine, dispatch, hcl, handlePwdResult, hq, ht, resolveInProgress,
        getInProgress_pwd, hpwd, storeResolve]
      exact storeGet_storeSettle_self _ _ _ hpending
  · intro e hup hpending
    constructor
    · simp only [processLine, dispatch, hclU, handleUploading, hch, hup]
    · simp only [processLine, dispatch, hclU, handleUploading, hch, hup, storeResolve]
      exact storeGet_storeSettle_self _ _ _ hpending

/-- Claim C6 amended witness: the concrete pwd and upload runs, with entries surviving settlement. -/
theorem sftp_c6_amended_witness :
    ((processLine cfgNormal (pwdCall (initState cfgNormal)).st
        "Remote working directory: /home/x").st.pwdInProgress = some 1
      ∧ storeGet (processLine cfgNormal (pwdCall (initState cfgNormal)).st
          "Remote working directory: /home/x").st.promises 1
        = some (PState.resolved (SftpValue.vStr "/home/x")))
    ∧ (mapGet (processLine cfgNormal (uploadFileCall (initState cfgNormal) "p" none).st
        "Uploading p to x").st.uploadInProgress "p"
          = some { transferType := "upload", localPath := "p", remotePath := none
                 , command := "put p", pendingId := 1 }
      ∧ storeGet (processLine cfgNormal (uploadFileCall (initState cfgNormal) "p" none).st
          "Uploading p to x").st.promises 1
        = some (PState.resolved (SftpValue.vBool true))) :=
  ⟨(sftp_c6_amended cfgNormal (pwdCall (initState cfgNormal)).st).1 1 (by decide) (by decide),
   (sftp_c6_amended cfgNormal (uploadFileCall (initState cfgNormal) "p" none).st).2
     { transferType := "upload", localPath := "p", remotePath := none
     , command := "put p", pendingId := 1 } (by decide) (by decide)⟩

/-- Claim C7 counterexample. A second pwd() before the first settles silently overwrites the slot: afterwards the slot holds the second operation, the first future is still pending, no call reaches the logger, and the result line settles only the second operation, leaving the first pending forever. -/
theorem sftp_c7_counterexample :
    (pwdCall (pwdCall (initState cfgNormal)).st).st.pwdInProgress = some 2
    ∧ storeGet (pwdCall (pwdCall (initState cfgNormal)).st).st.promises 1 = some PState.pending
    ∧ storeGet (processLine cfgNormal (pwdCall (pwdCall (initState cfgNormal)).st).st
        "Remote working directory: /home/x").st.promises 2
        = some (PState.resolved (SftpValue.vStr "/home/x"))
    ∧ storeGet (processLine cfgNormal (pwdCall (pwdCall (initState cfgNormal)).st).st
        "Remote working directory: /home/x").st.promises 1 = some PState.pending
    ∧ (processLine cfgNormal (pwdCall (pwdCall (initState cfgNormal)).st).st
        "Remote working directory: /home/x").calls = [] := by decide

/-- Claim C7 amended: a second pwd registration before the first settles silently supersedes it — the slot then holds the fresh operation, the two operations have distinct futures, and the first future is left pending with no error raised. -/
theorem sftp_c7_amended (st : SftpState)
    (hfresh : storeGet st.promises st.nextId = none) :
    (pwdCall (pwdCall st).st).st.pwdInProgress = some ((pwdCall (pwdCall st).st).promiseId)
    ∧ (pwdCall st).promiseId ≠ (pwdCall (pwdCall st).st).promiseId
    ∧ storeGet (pwdCall (pwdCall st).st).st.promises ((pwdCall st).promiseId)
        = some PState.pending := by
  refine ⟨rfl, ?_, ?_⟩
  · simp only [pwdCall]
    omega
  · simp only [pwdCall]
    rw [storeGet_append_of_ne _ _ _ _ (by omega)]
    exact storeGet_append_of_none _ _ _ hfresh

/-- Claim C7 amended witness: the fresh client discharges the freshness hypothesis and the first of two pwd futures is still pending after both registrations. -/
theorem sftp_c7_amended_witness :
    storeGet (initState cfgNormal).promises (initState cfgNormal).nextId = none
    ∧ storeGet (pwdCall (pwdCall (initState cfgNormal)).st).st.promises
        ((pwdCall (initState cfgNormal)).promiseId) = some PState.pending :=
  ⟨by decide, (sftp_c7_amended (initState cfgNormal) (by decide)).2.2⟩

/-- Claim C8. With logMode silent, no call reaches the wrapped Logger for any input line sequence. With logMode only-unknown, for every input line sequence — mixed sequences included — every call that reaches the wrapped Logger is the otherwise-arm log call of some line of the sequence classified as unrecognized (so recognized lines never produce Logger calls), and an unrecognized line processed with the wrapper gate at silent forwards exactly the one expected log call. -/
theorem sftp_c8_verbosity (cfg : ClientOptions) (lines : List String) :
    (cfg.logMode = LogMode.silent → (processLines cfg (initState cfg) lines).2 = [])
    ∧ (cfg.logMode = LogMode.onlyUnknown →
        ∀ c ∈ (processLines cfg (initState cfg) lines).2,
          ∃ l ∈ lines, classify l = LineTag.unrecognizedT
            ∧ c = ⟨Severity.log, cfg.uploaderName ++ ": -> " ++ l, []⟩)
    ∧ (cfg.logMode = LogMode.onlyUnknown → ∀ (st : SftpState) (l : String),
        st.slMode = SLMode.silent → classify l = LineTag.unrecognizedT →
        (processLine cfg st l).calls
          = [⟨Severity.log, cfg.uploaderName ++ ": -> " ++ l, []⟩]) := by
  refine ⟨?_, ?_, ?_⟩
  · intro h
    exact processLines_calls_silentCfg cfg h lines (initState cfg)
      (by simp [initState, h, initialSLMode])
  · intro h
    exact processLines_onlyUnknown_calls cfg h lines (initState cfg)
      (by simp [initState, h, initialSLMode])
  · intro h st l hst hcl
    exact (processLine_onlyUnknown_unrecognized cfg st l h hst hcl).1

/-- Claim C8 witness: a silent client forwards nothing over a mixed line sequence; over the same mixed sequence an only-unknown client forwards only otherwise-arm calls of unrecognized lines, and the unrecognized line forwards exactly one log call. -/
theorem sftp_c8_verbosity_witness :
    (processLines cfgSilent (initState cfgSilent)
        ["Connected to my-alias.", "weird line", "sftp> "]).2 = []
    ∧ (∀ c ∈ (processLines cfgOnlyUnknown (initState cfgOnlyUnknown)
        ["Connected to my-alias.", "weird line", "sftp> "]).2,
        ∃ l ∈ ["Connected to my-alias.", "weird line", "sftp> "],
          classify l = LineTag.unrecognizedT
            ∧ c = ⟨Severity.log, cfgOnlyUnknown.uploaderName ++ ": -> " ++ l, []⟩)
    ∧ (processLine cfgOnlyUnknown (initState cfgOnlyUnknown) "weird line").calls
        = [⟨Severity.log, cfgOnlyUnknown.uploaderName ++ ": -> " ++ "weird line", []⟩] :=
  ⟨(sftp_c8_verbosity cfgSilent ["Connected to my-alias.", "weird line", "sftp> "]).1 rfl,
   (sftp_c8_verbosity cfgOnlyUnknown
      ["Connected to my-alias.", "weird line", "sftp> "]).2.1 rfl,
   (sftp_c8_verbosity cfgOnlyUnknown []).2.2 rfl (initState cfgOnlyUnknown) "weird line"
     (by decide) (by decide)⟩

/-- Claim C9 counterexample. ls, lls and downloadFile complete at command-write time: they leave the client state untouched and register no pending operation, so no output line is involved in their completion. -/
theorem sftp_c9_counterexample :
    lsCall (initState cfgNormal) (some "dir") = (initState cfgNormal, "ls dir\n")
    ∧ llsCall (initState cfgNormal) none = (initState cfgNormal, "lls\n")
    ∧ downloadFileCall (initState cfgNormal) "r.txt" (some "l.txt")
        = (initState cfgNormal, "get r.txt l.txt\n") := by decide

/-- Claim C9 amended: pwd, cd and uploadFile register a future that is pending at return time and settled only by the line-processing engine, while ls, lls and downloadFile leave the state untouched and complete as soon as their command is written. -/
theorem sftp_c9_amended (st : SftpState) (pth loc : String) (r : Option String) :
    ((lsCall st (some pth)).1 = st ∧ (lsCall st none).1 = st
      ∧ (llsCall st (some pth)).1 = st ∧ (llsCall st none).1 = st
      ∧ (downloadFileCall st pth r).1 = st)
    ∧ (storeGet st.promises st.nextId = none →
        storeGet (pwdCall st).st.promises (pwdCall st).promiseId = some PState.pending
        ∧ (pwdCall st).st.pwdInProgress = some (pwdCall st).promiseId
        ∧ storeGet (cdCall st pth).st.promises (cdCall st pth).promiseId = some PState.pending
        ∧ (cdCall st pth).st.cdInProgress = some (pth, (cdCall st pth).promiseId)
        ∧ storeGet (uploadFileCall st loc r).st.promises (uploadFileCall st loc r).promiseId
            = some PState.pending
        ∧ mapGet (uploadFileCall st loc r).st.uploadInProgress loc
            = some (prepareFileUploadCommand st loc r).2) := by
  refine ⟨⟨rfl, rfl, rfl, rfl, ?_⟩, ?_⟩
  · cases r <;> rfl
  · intro hfresh
    refine ⟨?_, rfl, ?_, rfl, ?_, ?_⟩
    · simp only [pwdCall]
      exact storeGet_append_of_none _ _ _ hfresh
    · simp only [cdCall]
      exact storeGet_append_of_none _ _ _ hfresh
    · simp only [uploadFileCall, prepareFileUploadCommand]
      exact storeGet_append_of_none _ _ _ hfresh
    · simp only [uploadFileCall, prepareFileUploadCommand]
      exact mapGet_mapSet_self _ _ _

/-- Claim C9 amended witness: at a fresh client the freshness hypothesis holds and pwd registers a pending future. -/
theorem sftp_c9_amended_witness :
    storeGet (initState cfgNormal).promises (initState cfgNormal).nextId = none
    ∧ storeGet (pwdCall (initState cfgNormal)).st.promises
        (pwdCall (initState cfgNormal)).promiseId = some PState.pending :=
  ⟨by decide,
   ((sftp_c9_amended (initState cfgNormal) "dir" "a.txt" (some "b.txt")).2 (by decide)).1⟩

end SftpSpec
